import Mathlib

/-
Verification of the path/URL resolution and safe-write protocol of
flask_store/stores/local.py (class LocalStore).

The Python code is embedded shallowly: pure string manipulation becomes
Lean functions on String, the filesystem becomes an explicit association
list from paths to nodes, and the effectful save routine becomes a
function from an initial filesystem plus a syscall-outcome environment to
an explicit outcome record (result, final filesystem, event counters).
Helpers of this repository that are referenced by local.py but whose
source is not part of the reviewed tree (path_to_uri, url_join,
safe_filename, store_path, the configuration defaults of the store
extension) are modelled from the specification text and carry a doc
comment saying so.
-/

namespace FlaskStore

/-- os.path.sep on POSIX: the single path separator character. -/
def sepChar : Char := '/'

/-- Python str.lstrip(os.path.sep): drop every leading separator character. -/
def lstripSep (s : String) : String :=
  (s.toList.dropWhile (fun c => c = sepChar)).asString

/-- Python str.rstrip(os.path.sep): drop every trailing separator character. -/
def rstripSep (s : String) : String :=
  ((s.toList.reverse.dropWhile (fun c => c = sepChar)).reverse).asString

/-- Whether a string begins with the path separator. -/
def startsWithSep (s : String) : Bool :=
  match s.toList with
  | [] => false
  | c :: _ => c = sepChar

/-- Whether a string ends with the path separator. -/
def endsWithSep (s : String) : Bool :=
  match s.toList.getLast? with
  | some c => c = sepChar
  | none => false

/-- POSIX os.path.join for two components: an absolute second component
replaces the first; otherwise the components are concatenated, inserting a
separator unless the first is empty or already ends with one. -/
def os_path_join2 (a b : String) : String :=
  if startsWithSep b then b
  else if a = "" then a ++ b
  else if endsWithSep a then a ++ b
  else a ++ "/" ++ b

/-- The loop body of LocalStore.join: `path` starts empty, each part with
index greater than zero is lstripped of separators, and each part is
folded in with os.path.join. -/
def joinLoop (path : String) (i : Nat) : List String → String
  | [] => path
  | part :: rest =>
      let part2 := if i > 0 then lstripSep part else part
      joinLoop (os_path_join2 path part2) (i + 1) rest

/-- LocalStore.join (local.py lines 70 to 85): fold the parts through
os.path.join, lstripping separators from every part after the first, and
rstrip the separator from the final result. -/
def join (parts : List String) : String :=
  rstripSep (joinLoop "" 0 parts)

/-- The transformation named by claim C4: leading separators removed from
every segment after the first, the first segment untouched. -/
def stripLeadingSeps : List String → List String
  | [] => []
  | h :: t => h :: t.map lstripSep

theorem dropWhile_idem (p : Char → Bool) (l : List Char) :
    (l.dropWhile p).dropWhile p = l.dropWhile p := by
  induction l with
  | nil => rfl
  | cons a t ih =>
      by_cases h : p a
      · simp [List.dropWhile, h, ih]
      · simp [List.dropWhile, h]

theorem lstripSep_idem (s : String) : lstripSep (lstripSep s) = lstripSep s := by
  unfold lstripSep
  have h : (List.asString (s.toList.dropWhile (fun c => c = sepChar))).toList
      = s.toList.dropWhile (fun c => c = sepChar) := rfl
  rw [h, dropWhile_idem]

theorem rstripSep_idem (s : String) : rstripSep (rstripSep s) = rstripSep s := by
  unfold rstripSep
  have h : (List.asString ((s.toList.reverse.dropWhile (fun c => c = sepChar)).reverse)).toList
      = (s.toList.reverse.dropWhile (fun c => c = sepChar)).reverse := rfl
  rw [h, List.reverse_reverse, dropWhile_idem]

theorem joinLoop_map_lstrip (t : List String) (path : String) (i : Nat) (hi : 0 < i) :
    joinLoop path i (t.map lstripSep) = joinLoop path i t := by
  induction t generalizing path i with
  | nil => rfl
  | cons a rest ih =>
      simp only [List.map, joinLoop]
      have h1 : (if i > 0 then lstripSep (lstripSep a) else lstripSep a) = lstripSep a := by
        rw [if_pos hi, lstripSep_idem]
      have h2 : (if i > 0 then lstripSep a else a) = lstripSep a := by
        rw [if_pos hi]
      rw [h1, h2]
      exact ih _ _ (Nat.succ_pos i)

/-- C4. join strips leading separators from every segment after the first
and strips trailing separators from the final result: join of a sequence
with leading separators pre-stripped from the non-first segments equals
join of the original sequence; the result is a fixed point of
trailing-separator stripping; and in particular join of a, /b equals
join of a, b. -/
theorem C4_join_strips_separators (parts : List String) :
    join (stripLeadingSeps parts) = join parts ∧
    rstripSep (join parts) = join parts ∧
    join ["a", "/b"] = join ["a", "b"] := by
  refine ⟨?_, ?_, rfl⟩
  · cases parts with
    | nil => rfl
    | cons h t =>
        unfold join stripLeadingSeps
        simp only [joinLoop]
        exact congrArg rstripSep (joinLoop_map_lstrip t _ 1 Nat.one_pos)
  · unfold join
    exact rstripSep_idem _

/-- The application configuration keys this store reads. Field
STORE_URL_PREFIX_SETTING models the configuration key for the URL
path segment prepended to generated URLs; STORE_PATH is the base
filesystem path; STORE_DOMAIN is the optional domain, the empty string
standing for an unset or empty domain (the spec treats the domain as
optional and requires the empty case not to crash). -/
structure StoreConfig where
  STORE_PATH : String
  STORE_URL_PREFIX_SETTING : String
  STORE_DOMAIN : String
deriving DecidableEq

/-- A LocalStore instance: the ambient application configuration plus the
optional per-instance destination. -/
structure LocalStore where
  config : StoreConfig
  destination : Option String
deriving DecidableEq

/-- Modelled from the spec: BaseStore.store_path is not part of the
reviewed tree. The spec states absolute_path returns
join(base_path, filename), with base_path the configured STORE_PATH, so
store_path is the configured base path. -/
def LocalStore.store_path (s : LocalStore) : String :=
  s.config.STORE_PATH

/-- LocalStore.absolute_path (local.py lines 87 to 96): join of
store_path and the filename. -/
def LocalStore.absolute_path (s : LocalStore) (filename : String) : String :=
  join [s.store_path, filename]

/-- Segment-stack normalization of an absolute POSIX path, as performed by
the operating system when resolving a path (the semantics of
os.path.normpath on absolute paths): empty and dot segments vanish, a
dot-dot segment pops the previous segment. Used to formalize what a path
resolves to. -/
def normSegsAux : List String → List String → List String
  | stack, [] => stack.reverse
  | stack, seg :: rest =>
      if seg = "" ∨ seg = "." then normSegsAux stack rest
      else if seg = ".." then normSegsAux stack.tail rest
      else normSegsAux (seg :: stack) rest

/-- Split a character list at every occurrence of a character, keeping
empty groups, as Python str.split with an explicit separator does. -/
def splitChar (c : Char) : List Char → List (List Char)
  | [] => [[]]
  | a :: rest =>
      match splitChar c rest with
      | [] => if a = c then [[], []] else [[a]]
      | g :: gs => if a = c then [] :: g :: gs else (a :: g) :: gs

/-- Split a path into its separator-delimited segments. -/
def splitSep (p : String) : List String :=
  (splitChar sepChar p.toList).map List.asString

/-- Join segments with the separator. -/
def joinSegs : List String → String
  | [] => ""
  | [s] => s
  | s :: rest => s ++ "/" ++ joinSegs rest

/-- Resolve an absolute POSIX path by normalizing its segments. -/
def posixResolve (p : String) : String :=
  "/" ++ joinSegs (normSegsAux [] (splitSep p))

/-- Whether path p lies at or under the directory base. -/
def isUnder (base p : String) : Bool :=
  decide (p = base) || (base ++ "/").toList.isPrefixOf p.toList

/-- A concrete store used by several concrete evaluations: base path
/base, URL path segment /flaskstore, no domain, no destination. -/
def plainStore : LocalStore :=
  ⟨⟨"/base", "/flaskstore", ""⟩, none⟩

/-- Hexadecimal digit for a value below sixteen, uppercase letters. -/
def hexDigitChar (n : Nat) : Char :=
  if n < 10 then Char.ofNat (48 + n) else Char.ofNat (55 + n)

/-- Whether a character is URL-safe: letters, digits, the segment
separator, and the characters colon, dot, dash, underscore, tilde. -/
def uriSafeChar (c : Char) : Bool :=
  ('a' ≤ c && c ≤ 'z') || ('A' ≤ c && c ≤ 'Z') || ('0' ≤ c && c ≤ '9') ||
  c == '/' || c == ':' || c == '.' || c == '-' || c == '_' || c == '~'

/-- Percent-encode one character as a percent sign and two hex digits. -/
def percentEncodeChar (c : Char) : List Char :=
  ['%', hexDigitChar (c.toNat / 16 % 16), hexDigitChar (c.toNat % 16)]

/-- Modelled from the spec: flask_store.utils.path_to_uri is not part of
the reviewed tree. The spec describes it as a path-to-URI encoder that
encodes characters unsafe in a URL while leaving the slash as a segment
separator, so URL-safe characters pass through unchanged and every other
character is percent-encoded. -/
def path_to_uri (path : String) : String :=
  (path.toList.flatMap (fun c => if uriSafeChar c then [c] else percentEncodeChar c)).asString

/-- Modelled from the spec: BaseStore.url_join is not part of the reviewed
tree. The spec says relative_url joins its segments using the same
separator-stripping join logic as paths, applied to URL segments; the URL
separator coincides with the POSIX path separator, so url_join is the join
algorithm itself. -/
def url_join (parts : List String) : String :=
  join parts

/-- Find the first scheme marker (colon slash slash) in a character list,
returning the text before it and the text after it. -/
def breakScheme : List Char → Option (List Char × List Char)
  | [] => none
  | ':' :: '/' :: '/' :: rest => some ([], rest)
  | c :: rest =>
      match breakScheme rest with
      | some (a, b) => some (c :: a, b)
      | none => none

/-- Model of Python urlparse.urljoin restricted to the shapes this store
produces: an empty base returns the url unchanged; an empty url returns
the base; a url carrying its own scheme wins; a base of the form
scheme colon slash slash host followed by an absolute-path url yields the
scheme and host with that path; a base without a scheme contributes no
scheme or host, leaving the url. -/
def urljoin (base url : String) : String :=
  if base = "" then url
  else if url = "" then base
  else
    match breakScheme url.toList with
    | some _ => url
    | none =>
        match breakScheme base.toList with
        | some (scheme, rest) =>
            let netloc := rest.takeWhile (fun c => c ≠ sepChar)
            let root := scheme.asString ++ "://" ++ netloc.asString
            if startsWithSep url then root ++ url else root ++ "/" ++ url
        | none => url

/-- The parts list built by LocalStore.relative_url (local.py lines 143 to
146): the URL path segment, then the destination when set, then the
filename. -/
def relParts (s : LocalStore) (filename : String) : List String :=
  let parts := [s.config.STORE_URL_PREFIX_SETTING]
  let parts := match s.destination with
    | some d => parts ++ [d]
    | none => parts
  parts ++ [filename]

/-- LocalStore.relative_url (local.py lines 134 to 148): url_join of the
parts, run through path_to_uri. -/
def LocalStore.relative_url (s : LocalStore) (filename : String) : String :=
  path_to_uri (url_join (relParts s filename))

/-- LocalStore.absolute_url (local.py lines 115 to 132): urljoin of the
configured domain and the relative URL, run through path_to_uri. The
source first assigns the bare relative URL when the domain is falsy, but
that assignment is dead, being unconditionally overwritten by the urljoin
result on the next statement, so the embedding is the unconditional
expression. -/
def LocalStore.absolute_url (s : LocalStore) (filename : String) : String :=
  let path := urljoin s.config.STORE_DOMAIN (s.relative_url filename)
  path_to_uri path

/-- Whether every character of a string is URL-safe. -/
def allSafeStr (s : String) : Bool :=
  s.toList.all uriSafeChar

theorem flatMap_of_allSafe (l : List Char) (h : l.all uriSafeChar = true) :
    l.flatMap (fun c => if uriSafeChar c then [c] else percentEncodeChar c) = l := by
  induction l with
  | nil => rfl
  | cons a t ih =>
      rw [List.all_cons, Bool.and_eq_true] at h
      rw [List.flatMap_cons, if_pos h.1, ih h.2]
      rfl

theorem path_to_uri_of_allSafe (s : String) (h : allSafeStr s = true) :
    path_to_uri s = s := by
  unfold path_to_uri
  rw [flatMap_of_allSafe s.toList h]
  rfl

theorem urljoin_empty_base (u : String) : urljoin "" u = u := by
  unfold urljoin
  rw [if_pos rfl]

/-- C2 (amended). absolute_path(filename) equals join(base_path, filename),
and leading separators in the filename are ignored, so a filename cannot
re-anchor the result at the filesystem root; however a filename containing
dot-dot segments can make the result resolve outside base_path, so the
original unconditional containment clause fails. -/
theorem C2_absolute_path_joins_base (S : LocalStore) (f : String) :
    S.absolute_path f = join [S.store_path, f] ∧
    S.absolute_path f = S.absolute_path (lstripSep f) := by
  refine ⟨rfl, ?_⟩
  show rstripSep (os_path_join2 (os_path_join2 "" S.store_path) (lstripSep f))
      = rstripSep (os_path_join2 (os_path_join2 "" S.store_path) (lstripSep (lstripSep f)))
  rw [lstripSep_idem]

/-- C2 counterexample: with base path /base, the filename ../x produces
/base/../x, which resolves to /x, a location outside /base. -/
theorem C2_counterexample :
    plainStore.absolute_path "../x" = "/base/../x" ∧
    posixResolve (plainStore.absolute_path "../x") = "/x" ∧
    isUnder "/base" (posixResolve (plainStore.absolute_path "../x")) = false := by
  refine ⟨by decide, by decide, by decide⟩

/-- A concrete store used by the URL claims with a domain and a
destination: domain cdn.example.com over https, destination avatars. -/
def cdnStore : LocalStore :=
  ⟨⟨"/base", "/flaskstore", "https://cdn.example.com"⟩, some "avatars"⟩

/-- C3 (amended). When the configured domain is empty, absolute_url is
total (no crash) and returns path_to_uri(relative_url(filename)); this
equals the relative URL exactly when that URL contains only URL-safe
characters, but the encoding is applied a second time in general, so the
unconditional equality of the original claim fails on filenames with
URI-unsafe characters. -/
theorem C3_empty_domain_fallback (cfg : StoreConfig) (dest : Option String) (f : String)
    (hdom : cfg.STORE_DOMAIN = "") :
    (LocalStore.mk cfg dest).absolute_url f
      = path_to_uri ((LocalStore.mk cfg dest).relative_url f) ∧
    (allSafeStr ((LocalStore.mk cfg dest).relative_url f) = true →
      (LocalStore.mk cfg dest).absolute_url f = (LocalStore.mk cfg dest).relative_url f) := by
  have h1 : (LocalStore.mk cfg dest).absolute_url f
      = path_to_uri ((LocalStore.mk cfg dest).relative_url f) := by
    unfold LocalStore.absolute_url
    rw [hdom, urljoin_empty_base]
  exact ⟨h1, fun hsafe => by rw [h1, path_to_uri_of_allSafe _ hsafe]⟩

/-- Witness for C3: with the empty domain and filename a.png, whose
relative URL is URL-safe, absolute_url coincides with relative_url. -/
theorem C3_witness :
    plainStore.absolute_url "a.png" = plainStore.relative_url "a.png" :=
  (C3_empty_domain_fallback ⟨"/base", "/flaskstore", ""⟩ none "a.png" rfl).2 (by decide)

/-- C3 counterexample: with the empty domain and the filename a b.png,
the relative URL encodes the space once while absolute_url encodes it a
second time, so the two differ and the original claim's unconditional
equality is false. -/
theorem C3_counterexample :
    plainStore.relative_url "a b.png" = "/flaskstore/a%20b.png" ∧
    plainStore.absolute_url "a b.png" = "/flaskstore/a%2520b.png" ∧
    plainStore.absolute_url "a b.png" ≠ plainStore.relative_url "a b.png" := by
  refine ⟨by decide, by decide, by decide⟩

/-- C7. absolute_url resolves the relative URL against the configured
domain with the URL-join semantics and URI-encodes the result; with
domain cdn.example.com over https, URL path segment flaskstore and
destination avatars, the absolute URL of x.png is exactly the
concatenation of domain, URL path segment, destination and filename. -/
theorem C7_absolute_url_with_domain (S : LocalStore) (f : String) :
    S.absolute_url f = path_to_uri (urljoin S.config.STORE_DOMAIN (S.relative_url f)) ∧
    cdnStore.absolute_url "x.png" = "https://cdn.example.com/flaskstore/avatars/x.png" := by
  exact ⟨rfl, by decide⟩

/-- C10. relative_url returns an already-encoded string, and absolute_url
encodes the urljoin of the domain with that string a second time; with the
empty domain, absolute_url is path_to_uri applied twice to the joined
segments, so a filename with a space is single-encoded in relative_url and
double-encoded in absolute_url. -/
theorem C10_double_encoding (S : LocalStore) (f : String) :
    S.relative_url f = path_to_uri (url_join (relParts S f)) ∧
    (S.config.STORE_DOMAIN = "" →
      S.absolute_url f = path_to_uri (path_to_uri (url_join (relParts S f)))) ∧
    plainStore.relative_url "p q.png" = "/flaskstore/p%20q.png" ∧
    plainStore.absolute_url "p q.png" = "/flaskstore/p%2520q.png" := by
  refine ⟨rfl, ?_, by decide, by decide⟩
  intro hdom
  unfold LocalStore.absolute_url
  rw [hdom, urljoin_empty_base]
  rfl

/-- Witness for C10: the double application at the empty domain, at the
concrete store and filename. -/
theorem C10_witness :
    plainStore.absolute_url "p q.png"
      = path_to_uri (path_to_uri (url_join (relParts plainStore "p q.png"))) :=
  (C10_double_encoding plainStore "p q.png").2.1 rfl

/-- A node of the modelled filesystem: a plain file or a directory. -/
inductive FSNode
  | file
  | dir
deriving DecidableEq

/-- The modelled filesystem: an association list from absolute paths to
nodes; the first binding for a path wins, so consing a binding overwrites. -/
abbrev FS := List (String × FSNode)

/-- Look a path up in the filesystem. -/
def fsLookup : FS → String → Option FSNode
  | [], _ => none
  | (p, n) :: rest, q => if p = q then some n else fsLookup rest q

/-- os.path.exists: whether any node sits at the path. -/
def os_path_exists (fs : FS) (p : String) : Bool :=
  (fsLookup fs p).isSome

/-- os.path.isdir: whether a directory sits at the path. -/
def os_path_isdir (fs : FS) (p : String) : Bool :=
  decide (fsLookup fs p = some FSNode.dir)

/-- POSIX os.path.dirname: everything before the last separator, with
trailing separators stripped unless the head is all separators. -/
def os_path_dirname (p : String) : String :=
  let cs := p.toList
  let tailLen := (cs.reverse.takeWhile (fun c => c ≠ sepChar)).length
  let head := cs.take (cs.length - tailLen)
  if head.all (fun c => c = sepChar) then head.asString
  else ((head.reverse.dropWhile (fun c => c = sepChar)).reverse).asString

/-- The chain of ancestor paths created by os.makedirs for an absolute
directory path: each separator-delimited prefix. -/
def dirPrefixes (dir : String) : List String :=
  let segs := (splitSep dir).filter (fun s => s ≠ "")
  (List.range segs.length).map (fun i => "/" ++ joinSegs (segs.take (i + 1)))

/-- Insert a node at a path unless something already sits there. -/
def fsInsertIfAbsent (fs : FS) (p : String) (n : FSNode) : FS :=
  if os_path_exists fs p then fs else (p, n) :: fs

/-- The filesystem effect of a successful os.makedirs call: the directory
and every missing ancestor come into existence. -/
def makedirsFS (fs : FS) (dir : String) : FS :=
  (dirPrefixes dir).foldl (fun acc q => fsInsertIfAbsent acc q FSNode.dir) fs

/-- errno.EEXIST on Linux. -/
def EEXIST : Nat := 17

/-- The errors LocalStore.save can surface: an OSError from os.makedirs
carrying an errno, the IOError raised by the not-a-directory check, or the
exception propagating out of the file write. -/
inductive SaveError
  | osError (errno : Nat)
  | ioError (msg : String)
  | writeError (msg : String)
deriving DecidableEq

/-- Outcomes of the two fallible external calls inside save, supplied as
an oracle because the operating system may fail them for reasons outside
the filesystem snapshot (permissions, disk full, concurrent callers):
os.makedirs either succeeds (none) or raises OSError with an errno, and
file.save either succeeds (none) or raises with a message. -/
structure SaveEnv where
  makedirsErrno : Option Nat
  fileSaveErr : Option String
deriving DecidableEq

/-- What a run of LocalStore.save did: the returned filename or the
propagated error, the final filesystem, whether directory creation was
attempted, whether file.save was invoked, and how many times file.close
was invoked. -/
structure SaveOutcome where
  result : Except SaveError String
  fs : FS
  mkdirAttempted : Bool
  saveCalled : Bool
  closeCount : Nat

/-- Modelled from the spec: BaseStore.safe_filename is not part of the
reviewed tree. The spec requires only that the output never contains
path-separator characters and is never empty; this model removes
separator characters and falls back to a fixed name when nothing
remains. -/
def safe_filename (name : String) : String :=
  let cleaned := (name.toList.filter (fun c => c ≠ sepChar)).asString
  if cleaned = "" then "file" else cleaned

/-- The tail of LocalStore.save from line 195 on: verify the resolved
parent is a directory, raising IOError naming it otherwise; then invoke
file.save, letting its error propagate without closing; on success invoke
file.close once and return the filename. -/
def savePhase2 (fs : FS) (env : SaveEnv) (filename path directory : String)
    (mk : Bool) : SaveOutcome :=
  if ! os_path_isdir fs directory then
    ⟨Except.error (SaveError.ioError (directory ++ " is not a directory")), fs, mk, false, 0⟩
  else
    match env.fileSaveErr with
    | some m => ⟨Except.error (SaveError.writeError m), fs, mk, true, 0⟩
    | none => ⟨Except.ok filename, (path, FSNode.file) :: fs, mk, true, 1⟩

/-- LocalStore.save (local.py lines 168 to 202): sanitize the filename,
build the target path and its parent, create the parent when absent
(swallowing only the EEXIST failure), then verify, write, close and
return. -/
def LocalStore.save (S : LocalStore) (fs : FS) (env : SaveEnv)
    (uploadFilename : String) : SaveOutcome :=
  let filename := safe_filename uploadFilename
  let path := join [S.store_path, filename]
  let directory := os_path_dirname path
  if ! os_path_exists fs directory then
    match env.makedirsErrno with
    | some e =>
        if e ≠ EEXIST then
          ⟨Except.error (SaveError.osError e), fs, true, false, 0⟩
        else
          savePhase2 fs env filename path directory true
    | none => savePhase2 (makedirsFS fs directory) env filename path directory true
  else
    savePhase2 fs env filename path directory false

/-- LocalStore.exists (local.py lines 150 to 166): the compiled absolute
path of the filename carries a node. -/
def LocalStore.exists (S : LocalStore) (fs : FS) (filename : String) : Bool :=
  let path := join [S.store_path, filename]
  os_path_exists fs path

/-- The target path save writes to for a given upload filename. -/
def targetPath (S : LocalStore) (name : String) : String :=
  join [S.store_path, safe_filename name]

/-- The parent directory of the target path. -/
def targetDir (S : LocalStore) (name : String) : String :=
  os_path_dirname (targetPath S name)

/-- Modelled from the spec and the app_defaults source: the mutable
application configuration before defaulting, a field being none when the
host application has not set the key. Only the two keys touched by
app_defaults are modelled. -/
structure AppConfig where
  STORE_PATH : Option String
  STORE_URL_PREFIX_SETTING : Option String
deriving DecidableEq

/-- Python dict.setdefault: keep an existing value, otherwise store the
given default. -/
def setdefault (v : Option String) (d : String) : Option String :=
  some (v.getD d)

/-- LocalStore.app_defaults (local.py lines 56 to 68): default STORE_PATH
to the current working directory and the URL path segment key to
/flaskstore, each only when unset; cwd models os.getcwdu(). -/
def app_defaults (cwd : String) (app : AppConfig) : AppConfig :=
  { STORE_PATH := setdefault app.STORE_PATH cwd,
    STORE_URL_PREFIX_SETTING := setdefault app.STORE_URL_PREFIX_SETTING "/flaskstore" }

theorem savePhase2_closeCount (fs : FS) (env : SaveEnv) (fn p d : String) (mk : Bool) :
    (savePhase2 fs env fn p d mk).closeCount
      = (match (savePhase2 fs env fn p d mk).result with
         | Except.ok _ => 1
         | Except.error _ => 0) := by
  unfold savePhase2
  split
  · rfl
  · split <;> rfl

theorem savePhase2_mkdirAttempted (fs : FS) (env : SaveEnv) (fn p d : String) (mk : Bool) :
    (savePhase2 fs env fn p d mk).mkdirAttempted = mk := by
  unfold savePhase2
  split
  · rfl
  · split <;> rfl

theorem savePhase2_write (fs : FS) (env : SaveEnv) (fn p d : String) (mk : Bool)
    (m : String) (hm : env.fileSaveErr = some m)
    (hc : (savePhase2 fs env fn p d mk).saveCalled = true) :
    (savePhase2 fs env fn p d mk).result = Except.error (SaveError.writeError m) := by
  unfold savePhase2 at hc ⊢
  by_cases hd : (! os_path_isdir fs d) = true
  · rw [if_pos hd] at hc
    exact absurd hc (by simp)
  · rw [if_neg hd, hm]

theorem save_shape (S : LocalStore) (fs : FS) (env : SaveEnv) (name : String) :
    (∃ e, S.save fs env name
        = ⟨Except.error (SaveError.osError e), fs, true, false, 0⟩) ∨
    (∃ fs2 mk, S.save fs env name
        = savePhase2 fs2 env (safe_filename name) (targetPath S name) (targetDir S name) mk) := by
  unfold LocalStore.save
  dsimp only
  split
  · split
    · split
      · exact Or.inl ⟨_, rfl⟩
      · exact Or.inr ⟨fs, true, rfl⟩
    · exact Or.inr ⟨makedirsFS fs (targetDir S name), true, rfl⟩
  · exact Or.inr ⟨fs, false, rfl⟩

/-- C1 (amended). The upload handle is closed exactly once when the write
succeeds and never on any failing path; in particular when the write step
raises, the error propagates to the caller and close is not invoked, so
the unconditional close of the original claim fails. -/
theorem C1_close_only_on_success (S : LocalStore) (fs : FS) (env : SaveEnv)
    (name m : String) :
    (S.save fs env name).closeCount
      = (match (S.save fs env name).result with
         | Except.ok _ => 1
         | Except.error _ => 0) ∧
    (env.fileSaveErr = some m → (S.save fs env name).saveCalled = true →
      (S.save fs env name).result = Except.error (SaveError.writeError m)) := by
  rcases save_shape S fs env name with ⟨e, h⟩ | ⟨fs2, mk, h⟩
  · rw [h]
    exact ⟨rfl, fun _ hc => absurd hc (by simp)⟩
  · rw [h]
    exact ⟨savePhase2_closeCount fs2 env _ _ _ mk,
      fun hm hc => savePhase2_write fs2 env _ _ _ mk m hm hc⟩

/-- Witness for C1: a run whose write step fails with disk full reaches
the write and propagates that error. -/
theorem C1_witness :
    (plainStore.save [("/base", FSNode.dir)] ⟨none, some "disk full"⟩ "f.txt").result
      = Except.error (SaveError.writeError "disk full") :=
  (C1_close_only_on_success plainStore [("/base", FSNode.dir)] ⟨none, some "disk full"⟩
    "f.txt" "disk full").2 rfl (by decide)

/-- C1 counterexample: on that same run the write step is invoked and
fails, the error propagates, and close is invoked zero times, not once,
refuting the claim that the handle is released even when the write step
raises. -/
theorem C1_counterexample :
    (plainStore.save [("/base", FSNode.dir)] ⟨none, some "disk full"⟩ "f.txt").saveCalled
      = true ∧
    (plainStore.save [("/base", FSNode.dir)] ⟨none, some "disk full"⟩ "f.txt").result
      = Except.error (SaveError.writeError "disk full") ∧
    (plainStore.save [("/base", FSNode.dir)] ⟨none, some "disk full"⟩ "f.txt").closeCount
      = 0 := by
  refine ⟨by decide, ?_, by decide⟩
  rfl

/-- C5. When the parent directory of the target does not exist, creation
is attempted; a creation failure with errno EEXIST is swallowed and the
save proceeds with the post-attempt checks, while a failure with any other
errno propagates as the result of the save call. -/
theorem C5_mkdir_race (S : LocalStore) (fs : FS) (env : SaveEnv) (name : String) (e : Nat)
    (hex : os_path_exists fs (targetDir S name) = false) :
    (S.save fs env name).mkdirAttempted = true ∧
    (env.makedirsErrno = some e → e ≠ EEXIST →
      (S.save fs env name).result = Except.error (SaveError.osError e)) ∧
    (env.makedirsErrno = some EEXIST →
      S.save fs env name
        = savePhase2 fs env (safe_filename name) (targetPath S name) (targetDir S name) true) := by
  unfold LocalStore.save
  dsimp only
  unfold targetDir targetPath at hex
  rw [hex]
  refine ⟨?_, ?_, ?_⟩
  · show (match env.makedirsErrno with
      | some e => _
      | none => _ : SaveOutcome).mkdirAttempted = true
    rcases henv : env.makedirsErrno with _ | e2
    · exact savePhase2_mkdirAttempted _ env _ _ _ true
    · by_cases he : e2 ≠ EEXIST
      · simp only [if_pos he]
      · simp only [if_neg he]
        exact savePhase2_mkdirAttempted _ env _ _ _ true
  · intro hm he
    rw [hm]
    simp only [if_pos he]
    rfl
  · intro hm
    rw [hm]
    simp only [ne_eq, not_true_eq_false, if_neg, ite_false]
    rfl

/-- Witness for C5: with an empty filesystem the parent is absent; an
injected errno 13 (permission denied) propagates and creation was
attempted. -/
theorem C5_witness :
    (plainStore.save [] ⟨some 13, none⟩ "f.txt").result
        = Except.error (SaveError.osError 13) ∧
    (plainStore.save [] ⟨some 13, none⟩ "f.txt").mkdirAttempted = true := by
  have h := C5_mkdir_race plainStore [] ⟨some 13, none⟩ "f.txt" 13 (by decide)
  exact ⟨h.2.1 rfl (by decide), h.1⟩

/-- C6. When the resolved parent path exists but is not a directory, save
fails with an IOError whose message names that path, the write step is
never invoked, and the filesystem is unchanged. -/
theorem C6_not_a_directory (S : LocalStore) (fs : FS) (env : SaveEnv) (name : String)
    (hex : os_path_exists fs (targetDir S name) = true)
    (hnd : os_path_isdir fs (targetDir S name) = false) :
    (S.save fs env name).result
      = Except.error (SaveError.ioError (targetDir S name ++ " is not a directory")) ∧
    (S.save fs env name).saveCalled = false ∧
    (S.save fs env name).fs = fs := by
  unfold LocalStore.save
  dsimp only
  unfold targetDir targetPath at hex hnd ⊢
  rw [hex]
  show ((savePhase2 fs env _ _ _ false).result = _) ∧ _
  unfold savePhase2
  rw [hnd]
  exact ⟨rfl, rfl, rfl⟩

/-- Witness for C6: a plain file sits at /base, the parent of the target
path of f.txt under the plain store, so save fails with the IOError naming
/base, without invoking the write. -/
theorem C6_witness :
    (plainStore.save [("/base", FSNode.file)] ⟨none, none⟩ "f.txt").result
      = Except.error (SaveError.ioError "/base is not a directory") ∧
    (plainStore.save [("/base", FSNode.file)] ⟨none, none⟩ "f.txt").saveCalled = false := by
  have h := C6_not_a_directory plainStore [("/base", FSNode.file)] ⟨none, none⟩ "f.txt"
    (by decide) (by decide)
  refine ⟨?_, h.2.1⟩
  have h1 := h.1
  rw [h1]
  rfl

theorem safe_filename_spec (n : String) :
    ((safe_filename n).toList.all (fun c => c ≠ sepChar)) = true ∧ safe_filename n ≠ "" := by
  simp only [safe_filename]
  by_cases h : ((n.toList.filter (fun c => c ≠ sepChar)).asString) = ""
  · rw [if_pos h]
    exact ⟨by decide, by decide⟩
  · rw [if_neg h]
    refine ⟨?_, h⟩
    have he : ((n.toList.filter (fun c => c ≠ sepChar)).asString).toList
        = n.toList.filter (fun c => c ≠ sepChar) := rfl
    rw [he, List.all_eq_true]
    intro a ha
    exact (List.mem_filter.mp ha).2

theorem os_path_exists_cons_self (fs : FS) (p : String) (n : FSNode) :
    os_path_exists ((p, n) :: fs) p = true := by
  simp [os_path_exists, fsLookup]

/-- C8. When save completes successfully returning f, an exists call on
the resulting filesystem returns true; the returned f is the sanitized
filename, which contains no path separator and is not empty, hence is a
relative name rather than an absolute path. -/
theorem C8_roundtrip_exists (S : LocalStore) (fs : FS) (env : SaveEnv) (name f : String)
    (h : (S.save fs env name).result = Except.ok f) :
    S.exists (S.save fs env name).fs f = true ∧
    f = safe_filename name ∧
    (f.toList.all (fun c => c ≠ sepChar)) = true ∧
    f ≠ "" := by
  rcases save_shape S fs env name with ⟨e, hs⟩ | ⟨fs2, mk, hs⟩
  · rw [hs] at h
    exact absurd h (by simp)
  · rw [hs] at h ⊢
    unfold savePhase2 at h ⊢
    by_cases hd : (! os_path_isdir fs2 (targetDir S name)) = true
    · rw [if_pos hd] at h
      exact absurd h (by simp)
    · rw [if_neg hd] at h ⊢
      rcases henv : env.fileSaveErr with _ | m
      · rw [henv] at h
        have hf : safe_filename name = f := Except.ok.inj h
        subst hf
        refine ⟨?_, rfl, (safe_filename_spec name).1, (safe_filename_spec name).2⟩
        show os_path_exists ((targetPath S name, FSNode.file) :: fs2) (targetPath S name) = true
        exact os_path_exists_cons_self fs2 (targetPath S name) FSNode.file
      · rw [henv] at h
        exact absurd h (by simp)

/-- Witness for C8: a successful save of f.txt into an existing /base
directory leaves a filesystem on which exists of f.txt is true. -/
theorem C8_witness :
    plainStore.exists
        ((plainStore.save [("/base", FSNode.dir)] ⟨none, none⟩ "f.txt").fs) "f.txt" = true :=
  (C8_roundtrip_exists plainStore [("/base", FSNode.dir)] ⟨none, none⟩ "f.txt" "f.txt"
    (by rfl)).1

/-- C9. The configuration-defaulting step only fills unset keys: a value
the host application set is preserved, and applying the step twice equals
applying it once. -/
theorem C9_app_defaults_idempotent (cwd : String) (app : AppConfig) (v w : String) :
    (app.STORE_PATH = some v → (app_defaults cwd app).STORE_PATH = some v) ∧
    (app.STORE_URL_PREFIX_SETTING = some w →
      (app_defaults cwd app).STORE_URL_PREFIX_SETTING = some w) ∧
    app_defaults cwd (app_defaults cwd app) = app_defaults cwd app := by
  refine ⟨?_, ?_, ?_⟩
  · intro h
    simp [app_defaults, setdefault, h]
  · intro h
    simp [app_defaults, setdefault, h]
  · simp [app_defaults, setdefault]

/-- Witness for C9: values set by the host survive the defaulting step. -/
theorem C9_witness :
    (app_defaults "/cwd" ⟨some "/custom", some "/p"⟩).STORE_PATH = some "/custom" ∧
    (app_defaults "/cwd" ⟨some "/custom", some "/p"⟩).STORE_URL_PREFIX_SETTING = some "/p" := by
  have h := C9_app_defaults_idempotent "/cwd" ⟨some "/custom", some "/p"⟩ "/custom" "/p"
  exact ⟨h.1 rfl, h.2.1 rfl⟩

end FlaskStore
